import Mathlib

/-!
Verification development for the MapMod browser-automation engine
(src/MapMod/main.py).  The Python/JavaScript routines that the claims
concern are shallowly embedded as executable Lean definitions: the DOM a
query runs against is a finite tree of element nodes, selector matching is
abstracted as a per-element set of matching selector strings (the CSS
engine itself belongs to the external browser collaborator), and the
orchestration functions become pure functions over explicit environment
records capturing the per-call outcomes supplied by the browser.
-/

/-! ### String primitives (Python / JavaScript semantics, ASCII fragment)

The source manipulates text with Python `str.strip` / `str.upper` /
`str.lower` / `in`, `str.isprintable`, `str.isspace` and JavaScript
`trim` / `toLowerCase` / `includes`.  These agree on ASCII, which is the
fragment modelled here. -/

def pyIsSpace (c : Char) : Bool :=
  c == ' ' || c == '\t' || c == '\n' || c == '\r' || c == '\x0b' || c == '\x0c'

def pyIsPrintable (c : Char) : Bool :=
  0x20 ≤ c.toNat && c.toNat ≤ 0x7e

def pyStrip (s : String) : String :=
  String.mk (((s.toList.dropWhile pyIsSpace).reverse.dropWhile pyIsSpace).reverse)

def pyUpper (s : String) : String :=
  String.mk (s.toList.map Char.toUpper)

def pyLower (s : String) : String :=
  String.mk (s.toList.map Char.toLower)

def isPrefixChars : List Char → List Char → Bool
  | [], _ => true
  | _ :: _, [] => false
  | a :: as, b :: bs => a == b && isPrefixChars as bs

def containsChars (sub : List Char) : List Char → Bool
  | [] => sub.isEmpty
  | b :: bs => isPrefixChars sub (b :: bs) || containsChars sub bs

/-- Substring test: Python `needle in hay`, JavaScript `hay.includes(needle)`. -/
def strContains (hay needle : String) : Bool :=
  containsChars needle.toList hay.toList

/-! ### DOM model

An element node carries its tag name (lower case), its `role` attribute,
its `contenteditable` attribute, the set of candidate selector strings it
matches (selector matching is the browser's job and is abstracted as
data), its `innerText`, its bounding client rect, and its children.
Pixel coordinates are modelled as integers, with the JS `rect.x +
rect.width / 2` center computation halving by integer division. -/

structure Rect where
  x : ℤ
  y : ℤ
  w : ℤ
  h : ℤ
deriving DecidableEq, Repr

inductive Dom where
  | node (tag : String) (role : Option String) (contEd : Option String)
      (sels : List String) (text : String) (rect : Rect) (children : List Dom)
deriving Repr

def Dom.tag : Dom → String
  | .node t _ _ _ _ _ _ => t

def Dom.role : Dom → Option String
  | .node _ r _ _ _ _ _ => r

def Dom.contEd : Dom → Option String
  | .node _ _ e _ _ _ _ => e

def Dom.sels : Dom → List String
  | .node _ _ _ s _ _ _ => s

def Dom.text : Dom → String
  | .node _ _ _ _ tx _ _ => tx

def Dom.rect : Dom → Rect
  | .node _ _ _ _ _ rc _ => rc

def Dom.children : Dom → List Dom
  | .node _ _ _ _ _ _ ch => ch

/-- JavaScript visibility test used throughout the source:
`rect.width > 0 && rect.height > 0`. -/
def visibleDom (d : Dom) : Bool :=
  0 < d.rect.w && 0 < d.rect.h

def centerX (r : Rect) : ℤ := r.x + r.w / 2

def centerY (r : Rect) : ℤ := r.y + r.h / 2

mutual

/-- Preorder (document-order) listing of a subtree, pairing every node with
its ancestor chain, nearest ancestor first. -/
def domPreorder (anc : List Dom) : Dom → List (Dom × List Dom)
  | .node t r e s tx rc ch =>
      (Dom.node t r e s tx rc ch, anc) ::
        forestPreorder (Dom.node t r e s tx rc ch :: anc) ch

def forestPreorder (anc : List Dom) : List Dom → List (Dom × List Dom)
  | [] => []
  | d :: ds => domPreorder anc d ++ forestPreorder anc ds

end

/-- `document.querySelectorAll(sel)`: every matching node in document
order, each with its ancestor chain. -/
def querySelectorAllF (doc : List Dom) (sel : String) : List (Dom × List Dom) :=
  (forestPreorder [] doc).filter (fun p => p.1.sels.contains sel)

/-- `document.querySelector(sel)`: the first matching node in document
order. -/
def querySelectorF (doc : List Dom) (sel : String) : Option (Dom × List Dom) :=
  (querySelectorAllF doc sel).head?

/-- Descendants of a node in document order (JavaScript
`element.querySelector` searches descendants only, not the node itself). -/
def descendants (d : Dom) : List Dom :=
  (forestPreorder [] d.children).map Prod.fst

/-! ### Selector cascades of submit_name_change

The two in-page searches the Python drives through
`_evaluate_in_all_frames` inside `submit_name_change`: the place-name
input cascade (selector loop plus label-proximity fallback) and the
submit-control cascade. -/

/-- The `self.place_name_selectors` candidate list from the source. -/
def place_name_selectors : List String :=
  [ "input#i7",
    "input[jsname=\"YPqjbf\"]",
    "input[aria-label=\"Place name in English\"]",
    "input[placeholder=\"Add place name in English\"]",
    "input.VfPpkd-fmcmS-wGMbrd",
    "input[type=\"text\"][aria-label*=\"Place name\" i]",
    "input[placeholder*=\"place name\" i]" ]

/-- The `self.submit_selectors` candidate list from the source. -/
def submit_selectors : List String :=
  [ "span[jsname=\"V67aGc\"]",
    "span.VfPpkd-vQzf8d",
    "div.VfPpkd-RLmnJb",
    "span:has-text(\"Submit\")",
    "button:has-text(\"Submit\")",
    "button:has-text(\"Send\")",
    "[role=\"button\"]:has-text(\"Submit\")",
    "*[aria-label*=\"Submit\" i]",
    "*[aria-label*=\"Send\" i]" ]

structure PlaceNameHit where
  x : ℤ
  y : ℤ
  foundBy : String
deriving DecidableEq, Repr

/-- The ordered selector loop of the place-name JS: for each candidate,
`document.querySelector` yields only the first match in document order,
which is returned iff visible; otherwise the next candidate is tried. -/
def placeNameSelectorLoop (selectors : List String) (doc : List Dom) :
    Option PlaceNameHit :=
  match selectors with
  | [] => none
  | sel :: rest =>
      match querySelectorF doc sel with
      | some p =>
          if visibleDom p.1 then
            some ⟨centerX p.1.rect, centerY p.1.rect, "captured-selectors"⟩
          else placeNameSelectorLoop rest doc
      | none => placeNameSelectorLoop rest doc

/-- Tag test for `lab.closest('div, form, section')`. -/
def containerTag (d : Dom) : Bool :=
  d.tag == "div" || d.tag == "form" || d.tag == "section"

/-- Node test for `container.querySelector('input, textarea, [contenteditable]')`. -/
def editableSel (d : Dom) : Bool :=
  d.tag == "input" || d.tag == "textarea" || d.contEd.isSome

/-- The label nodes the fallback scans: `span, label` elements whose
innerText (lower-cased) includes "place name". -/
def placeNameLabels (doc : List Dom) : List (Dom × List Dom) :=
  (forestPreorder [] doc).filter
    (fun p => (p.1.tag == "span" || p.1.tag == "label") &&
      strContains (pyLower p.1.text) "place name")

/-- The label-proximity fallback loop of the place-name JS. -/
def labelProximityLoop : List (Dom × List Dom) → Option PlaceNameHit
  | [] => none
  | (lab, anc) :: rest =>
      match (lab :: anc).find? containerTag with
      | none => labelProximityLoop rest
      | some container =>
          match (descendants container).find? editableSel with
          | some inp =>
              if visibleDom inp then
                some ⟨centerX inp.rect, centerY inp.rect, "label-proximity"⟩
              else labelProximityLoop rest
          | none => labelProximityLoop rest

/-- The complete place-name search JS (main.py lines 888-935): the
candidate-selector loop, then the label-proximity fallback, else null. -/
def findPlaceNameInput (selectors : List String) (doc : List Dom) :
    Option PlaceNameHit :=
  match placeNameSelectorLoop selectors doc with
  | some h => some h
  | none => labelProximityLoop (placeNameLabels doc)

structure SubmitHit where
  x : ℤ
  y : ℤ
  text : String
  clickedVia : String
deriving DecidableEq, Repr

/-- Node test for `btn.closest('button, [role="button"], div[role], div')`. -/
def clickableSel (d : Dom) : Bool :=
  d.tag == "button" || d.role == some "button" ||
    (d.tag == "div" && d.role.isSome) || d.tag == "div"

/-- The rect the submit JS clicks for a contains-match: the nearest
self-or-ancestor passing `clickableSel`, else the node's own rect. -/
def ancestorRect (p : Dom × List Dom) : Rect :=
  match (p.1 :: p.2).find? clickableSel with
  | some c => c.rect
  | none => p.1.rect

/-- Per-node body of the submit JS inner loop: exact trimmed lower-cased
"submit" text returns the node's own center; otherwise submit-like text
returns the center of the closest clickable self-or-ancestor. -/
def submitScanNodes : List (Dom × List Dom) → Option SubmitHit
  | [] => none
  | (btn, anc) :: rest =>
      let t := pyLower (pyStrip btn.text)
      if visibleDom btn && t == "submit" then
        some ⟨centerX btn.rect, centerY btn.rect, t, "exact-match"⟩
      else if visibleDom btn && (strContains t "submit" || strContains t "send") then
        some ⟨centerX (ancestorRect (btn, anc)), centerY (ancestorRect (btn, anc)),
          t, "ancestor"⟩
      else submitScanNodes rest

/-- The submit-control search JS (main.py lines 975-1014): candidates in
priority order, and within a candidate all `querySelectorAll` matches in
document order. -/
def submitSelectorLoop (selectors : List String) (doc : List Dom) :
    Option SubmitHit :=
  match selectors with
  | [] => none
  | sel :: rest =>
      match submitScanNodes (querySelectorAllF doc sel) with
      | some h => some h
      | none => submitSelectorLoop rest doc

/-- A candidate selector "hits" in the place-name loop iff its first
document-order match exists and is visible. -/
def firstMatchVisible (doc : List Dom) (sel : String) : Bool :=
  match querySelectorF doc sel with
  | some p => visibleDom p.1
  | none => false

/-- Whether a node would be accepted by the submit inner loop: visible
with trimmed lower-cased text containing "submit" or "send". -/
def submitGood (d : Dom) : Bool :=
  visibleDom d &&
    (strContains (pyLower (pyStrip d.text)) "submit" ||
     strContains (pyLower (pyStrip d.text)) "send")

/-- The hit the submit inner loop produces for an accepted node. -/
def submitHitOf (p : Dom × List Dom) : SubmitHit :=
  let t := pyLower (pyStrip p.1.text)
  if t == "submit" then
    ⟨centerX p.1.rect, centerY p.1.rect, t, "exact-match"⟩
  else
    ⟨centerX (ancestorRect p), centerY (ancestorRect p), t, "ancestor"⟩

/-! ### Coordinate click dispatcher and suppression flag

`_click_xy_in_frame` / `_set_bot_clicking_for_all_frames` (main.py lines
89-121).  A frame is reachable when evaluating a script in it succeeds;
the per-frame `evaluate` call is modelled as an `Except`, and the
`try/except` around it is explicit. -/

structure PageFrame where
  evalOk : Bool
  flag : Bool
deriving DecidableEq, Repr

/-- One `frame.evaluate(js)` call of the flag-mirroring script: succeeds
and stores the flag when the frame is reachable, raises otherwise. -/
def frameFlagEval (v : Bool) (f : PageFrame) : Except Unit PageFrame :=
  if f.evalOk then .ok { f with flag := v } else .error ()

/-- The `try/except` wrapper around each per-frame evaluate: a raising
frame is left unchanged and the loop continues. -/
def frameFlagEvalCaught (v : Bool) (f : PageFrame) : PageFrame :=
  match frameFlagEval v f with
  | .ok f' => f'
  | .error _ => f

/-- `_set_bot_clicking_for_all_frames(value)`: best-effort mirror of
`__botClicking = value` into every frame; unreachable frames are skipped,
never raising past the function. -/
def set_bot_clicking_for_all_frames (v : Bool) (frames : List PageFrame) :
    List PageFrame :=
  frames.map (frameFlagEvalCaught v)

inductive ClickEv where
  | setFlags (v : Bool)
  | mouseClick
  | settleSleep
deriving DecidableEq, Repr

structure ClickTrace where
  steps : List (ClickEv × List PageFrame)
  raised : Bool
deriving DecidableEq, Repr

/-- `_click_xy_in_frame` (main.py lines 89-103) as a step trace: set the
flag everywhere, dispatch the click (state recorded as it is while the
click happens), clear the flag in a `finally`, then — only when nothing
raised and `click_delay > 0` — sleep the settle delay.  `raised` records
whether the mouse click's own exception propagates past the `finally`. -/
def click_xy_in_frame (clickThrows : Bool) (clickDelay : ℚ)
    (frames : List PageFrame) : ClickTrace :=
  let fSet := set_bot_clicking_for_all_frames true frames
  let fCleared := set_bot_clicking_for_all_frames false fSet
  { steps :=
      [(.setFlags true, fSet), (.mouseClick, fSet), (.setFlags false, fCleared)] ++
        (if clickThrows then []
         else if 0 < clickDelay then [(.settleSleep, fCleared)] else [])
    raised := clickThrows }

/-- The frame state in force once the whole call has run. -/
def ClickTrace.finalFrames (t : ClickTrace) : List PageFrame :=
  match t.steps.getLast? with
  | some s => s.2
  | none => []

/-! ### Frame evaluator

`_evaluate_in_all_frames` (main.py lines 68-87).  A frame's evaluation
either throws or yields a value whose truthiness decides acceptance
(`none` standing for a falsy result). -/

inductive FrameRef where
  | mainFrame
  | sub (i : Nat)
deriving DecidableEq, Repr

inductive EvalOutcome (α : Type) where
  | throws
  | value (v : Option α)
deriving DecidableEq, Repr

/-- The child-frame loop: skip throwing frames and falsy results, return
the first truthy result with its frame. -/
def subFramesScan {α : Type} : List (EvalOutcome α) → Nat → Option α × Option FrameRef
  | [], _ => (none, none)
  | .throws :: rest, i => subFramesScan rest (i + 1)
  | .value none :: rest, i => subFramesScan rest (i + 1)
  | .value (some r) :: _, i => (some r, some (.sub i))

/-- `_evaluate_in_all_frames`: main frame first (its exception is
swallowed), then each child frame in order, else `(None, None)`. -/
def evaluate_in_all_frames {α : Type} (main : EvalOutcome α)
    (subs : List (EvalOutcome α)) : Option α × Option FrameRef :=
  match main with
  | .value (some r) => (some r, some .mainFrame)
  | .value none => subFramesScan subs 0
  | .throws => subFramesScan subs 0

/-! ### Menu-entry selection in submit_name_change

The three JavaScript-result passes of main.py lines 779-845, choosing
which clickable element of the edit menu to click.  Mouse clicks at the
chosen coordinates are modelled as succeeding, so the first entry passing
a pass's test is the one clicked. -/

structure MenuItem where
  visible : Bool
  text : String
  x : ℤ
  y : ℤ
deriving DecidableEq, Repr

/-- The pass-1 cleaning: strip, upper-case, then keep printable
non-whitespace characters and plain spaces. -/
def menuCleanText (t : String) : String :=
  String.mk ((pyUpper (pyStrip t)).toList.filter
    (fun c => (pyIsPrintable c && !pyIsSpace c) || c == ' '))

/-- Pass 1: visible, non-empty text, non-empty upper-cased hint contained
in the cleaned text. -/
def menuPass1 (hint : String) (it : MenuItem) : Bool :=
  it.visible && it.text != "" && pyUpper hint != "" &&
    strContains (menuCleanText it.text) (pyUpper hint)

/-- Pass 2: visible, non-empty text, stripped text longer than one
character and not containing "http". -/
def menuPass2 (it : MenuItem) : Bool :=
  it.visible && it.text != "" &&
    (1 < (pyStrip it.text).length && !strContains (pyLower (pyStrip it.text)) "http")

/-- Pass 3: any visible entry with non-empty text. -/
def menuPass3 (it : MenuItem) : Bool :=
  it.visible && it.text != ""

inductive MenuPass where
  | hintMatch
  | multiChar
  | anyText
deriving DecidableEq, Repr

/-- The three-pass selection over the listed clickables. -/
def selectMenuEntry (hint : String) (items : List MenuItem) :
    Option (MenuPass × MenuItem) :=
  match items.find? (menuPass1 hint) with
  | some it => some (.hintMatch, it)
  | none =>
      match items.find? menuPass2 with
      | some it => some (.multiChar, it)
      | none =>
          match items.find? menuPass3 with
          | some it => some (.anyText, it)
          | none => none

/-! ### open_suggest_edit

Control-flow skeleton of `open_suggest_edit` (main.py lines 466-671).
The environment records, per poll attempt, whether the info-panel
locator reports a visible panel, and whether each discovery fallback
succeeds; the outcome records the observable effects. -/

/-- First index in `[start, start + budget)` where `p` holds. -/
def pollFirstVisible (p : Nat → Bool) : Nat → Nat → Option Nat
  | _, 0 => none
  | start, n + 1 =>
      if p start then some start else pollFirstVisible p (start + 1) n

/-- Number of loop iterations of the panel poll:
`max(0, int(panel_wait_seconds))`, then `range(max_attempts or 1)`. -/
def panelPollBudget (panelWaitSeconds : Int) : Nat :=
  if panelWaitSeconds.toNat = 0 then 1 else panelWaitSeconds.toNat

structure SuggestEnv where
  panelWaitSeconds : Int
  panelVisibleAt : Nat → Bool
  selectorClickSucceeds : Bool
  panelBoxAvailable : Bool
  keyboardNavThrows : Bool
  lastResortFound : Bool

structure SuggestOutcome where
  pollAttemptsUsed : Nat
  panelLoaded : Bool
  warnedPanelNotLoaded : Bool
  found : Bool
  savedDebugArtifacts : Bool
  passiveWait45 : Bool
  result : Bool
deriving DecidableEq, Repr

/-- `open_suggest_edit`: poll for the info panel (warning, not failure, on
exhaustion), then the ranked-selector method, the panel-offset click, the
five-Tab keyboard navigation, and the page-text scan; when all fail, save
debug artifacts, wait 45 seconds and return True anyway. -/
def open_suggest_edit (env : SuggestEnv) : SuggestOutcome :=
  let budget := panelPollBudget env.panelWaitSeconds
  let hit := pollFirstVisible env.panelVisibleAt 0 budget
  let found := env.selectorClickSucceeds || env.panelBoxAvailable ||
    !env.keyboardNavThrows || env.lastResortFound
  { pollAttemptsUsed := match hit with | some k => k + 1 | none => budget
    panelLoaded := hit.isSome
    warnedPanelNotLoaded := !hit.isSome
    found := found
    savedDebugArtifacts := !found
    passiveWait45 := !found
    result := true }

/-! ### submit_name_change skeleton

Control flow of `submit_name_change` (main.py lines 673-1284) around the
embedded searches above.  The DOM snapshot each poll attempt queries and
the results the browser returns for the fallback path are environment
inputs; clicking, typing and keyboard presses are modelled as
succeeding. -/

structure EditableEl where
  x : ℤ
  y : ℤ
  tag : String
  value : String
  placeholder : String
deriving DecidableEq, Repr

inductive FallbackIterOutcome where
  | submitted
  | notFoundMsg
  | advance
deriving DecidableEq, Repr

inductive FallbackRet where
  | submitted
  | notFoundMsg
deriving DecidableEq, Repr

/-- Body of one fallback-input iteration after the fill, before the
`except` (main.py lines 1250-1260): `submit_button['x']` is evaluated
unconditionally, so a null search result raises before any branch; with a
result, a positive click delay reaches the "Submitted successfully"
return, and otherwise the `else` prints "Submit button not found" and
returns True. -/
def fallbackIterBody (submitRes : Option SubmitHit) (clickDelayPos : Bool) :
    Except String FallbackRet :=
  match submitRes with
  | none => .error "TypeError: 'NoneType' object is not subscriptable"
  | some _ => .ok (if clickDelayPos then .submitted else .notFoundMsg)

/-- One fallback-input iteration including the per-input `except`, which
swallows the raise and advances to the next editable element. -/
def fallbackIter (submitRes : Option SubmitHit) (clickDelayPos : Bool) :
    FallbackIterOutcome :=
  match fallbackIterBody submitRes clickDelayPos with
  | .error _ => .advance
  | .ok .submitted => .submitted
  | .ok .notFoundMsg => .notFoundMsg

inductive NameResult where
  | submittedMain
  | enterFallback
  | fallbackSubmitted (idx : Nat)
  | fallbackNotFoundMsg (idx : Nat)
  | fallbackExhausted
  | noInputs
  | menuNotFound
deriving DecidableEq, Repr

/-- The Boolean `submit_name_change` returns on each exit path; only the
no-inputs-at-all path returns False. -/
def NameResult.retval : NameResult → Bool
  | .noInputs => false
  | _ => true

/-- The `for idx ...` loop over the fallback editable elements. -/
def runFallbackLoop (f : Nat → Option SubmitHit) (clickDelayPos : Bool) :
    Nat → Nat → NameResult
  | _, 0 => .fallbackExhausted
  | idx, n + 1 =>
      match fallbackIter (f idx) clickDelayPos with
      | .advance => runFallbackLoop f clickDelayPos (idx + 1) n
      | .submitted => .fallbackSubmitted idx
      | .notFoundMsg => .fallbackNotFoundMsg idx

structure NameEnv where
  hint : String
  items : List MenuItem
  selectorFallbackClicks : Bool
  docAt : Nat → List Dom
  submitDoc : List Dom
  editables : List EditableEl
  fallbackSubmitAt : Nat → Option SubmitHit
  clickDelayPos : Bool

/-- Whether the menu stage clicked anything: the three JS passes, else the
selector-based fallback loop. -/
def menuClicked (env : NameEnv) : Bool :=
  (selectMenuEntry env.hint env.items).isSome || env.selectorFallbackClicks

structure NameOutcome where
  tag : NameResult
  result : Bool
  screenshotNoInputs : Bool
deriving DecidableEq, Repr

/-- `submit_name_change`: menu selection, the 20-attempt place-name poll,
the submit search with its Enter surrogate, the fallback editable-element
scan, and the no-inputs failure exit with its screenshot. -/
def submit_name_change (env : NameEnv) : NameOutcome :=
  let r : NameResult :=
    if menuClicked env then
      match pollFirstVisible
          (fun k => (findPlaceNameInput place_name_selectors (env.docAt k)).isSome)
          0 20 with
      | some _ =>
          match submitSelectorLoop submit_selectors env.submitDoc with
          | some _ => .submittedMain
          | none => .enterFallback
      | none =>
          if env.editables.isEmpty then .noInputs
          else runFallbackLoop env.fallbackSubmitAt env.clickDelayPos 0
            env.editables.length
    else .menuNotFound
  { tag := r, result := r.retval, screenshotNoInputs := r = .noInputs }

/-! ### submit_address_change skeleton

Control flow of `submit_address_change` (main.py lines 1286-1405): the
address menu-option loop, the direct address-input fallback, the submit
loop — and a `return True` on every non-raising path. -/

structure AddrEnv where
  menuOptionFound : Bool
  directInputFound : Bool
  submitFound : Bool
deriving DecidableEq, Repr

structure AddrOutcome where
  result : Bool
  warnedNoInput : Bool
  submitted : Bool
  warnedNoSubmit : Bool
deriving DecidableEq, Repr

def submit_address_change (env : AddrEnv) : AddrOutcome :=
  let clicked := env.menuOptionFound || env.directInputFound
  { result := true
    warnedNoInput := !clicked
    submitted := env.submitFound
    warnedNoSubmit := !env.submitFound }

/-! ### Result propagation

`suggest_general_edit` (main.py lines 1407-1431) and the edit section of
`main_async` (lines 1494-1501) call the two submit functions as bare
statements: the Booleans they return are not bound, tested or returned. -/

structure GeneralEditEnv where
  nameEdit : Option NameEnv
  addressEdit : Option AddrEnv

/-- `suggest_general_edit`: runs the requested edits, discards their
results, and returns True whenever no exception escapes. -/
def suggest_general_edit (env : GeneralEditEnv) : Bool :=
  let _nameRes := env.nameEdit.map (fun e => (submit_name_change e).result)
  let _addrRes := env.addressEdit.map (fun e => (submit_address_change e).result)
  true

/-- The edit section of `main_async`: the same bare-statement calls,
after which the completion banner is printed unconditionally. -/
def main_async_edit_phase (nameEdit : Option NameEnv)
    (addressEdit : Option AddrEnv) : Bool :=
  let _nameRes := nameEdit.map (fun e => (submit_name_change e).result)
  let _addrRes := addressEdit.map (fun e => (submit_address_change e).result)
  true

/-! ### Helper lemmas -/

/-- The default 0.5 s click delay (`self.click_delay = 0.5`). -/
def halfRat : ℚ := ⟨1, 2, by decide, Nat.coprime_one_left 2⟩

theorem find?_split {α : Type} (p : α → Bool) :
    ∀ (pre : List α) (a : α) (post : List α), p a = true →
      (∀ x ∈ pre, p x = false) → List.find? p (pre ++ a :: post) = some a
  | [], a, post, ha, _ => by simp [List.find?_cons, ha]
  | b :: pre, a, post, ha, hpre => by
      have hb : p b = false := hpre b (by simp)
      simp only [List.cons_append, List.find?_cons, hb]
      exact find?_split p pre a post ha (fun x hx => hpre x (by simp [hx]))

theorem find?_none {α : Type} (p : α → Bool) :
    ∀ l : List α, (∀ x ∈ l, p x = false) → List.find? p l = none
  | [], _ => rfl
  | b :: l, h => by
      have hb : p b = false := h b (by simp)
      simp only [List.find?_cons, hb]
      exact find?_none p l (fun x hx => h x (by simp [hx]))

theorem placeNameSelectorLoop_append :
    ∀ (P₁ : List String) (sel : String) (P₂ : List String) (doc : List Dom)
      (p : Dom × List Dom),
      (∀ s ∈ P₁, firstMatchVisible doc s = false) →
      querySelectorF doc sel = some p → visibleDom p.1 = true →
      placeNameSelectorLoop (P₁ ++ sel :: P₂) doc =
        some ⟨centerX p.1.rect, centerY p.1.rect, "captured-selectors"⟩
  | [], sel, P₂, doc, p, _, hq, hv => by
      simp [placeNameSelectorLoop, hq, hv]
  | s :: P₁, sel, P₂, doc, p, hpre, hq, hv => by
      have ih := placeNameSelectorLoop_append P₁ sel P₂ doc p
        (fun x hx => hpre x (by simp [hx])) hq hv
      rw [List.cons_append]
      unfold placeNameSelectorLoop
      cases hq' : querySelectorF doc s with
      | none => simpa using ih
      | some q =>
          have hs : visibleDom q.1 = false := by
            have h0 := hpre s (by simp)
            unfold firstMatchVisible at h0
            rw [hq'] at h0
            simpa using h0
          simpa [hs] using ih

theorem findPlaceNameInput_of_loop (sels : List String) (doc : List Dom)
    (hit : PlaceNameHit) (h : placeNameSelectorLoop sels doc = some hit) :
    findPlaceNameInput sels doc = some hit := by
  simp [findPlaceNameInput, h]

theorem submitGood_parts (btn : Dom) (h : submitGood btn = true) :
    visibleDom btn = true ∧
      (strContains (pyLower (pyStrip btn.text)) "submit" = true ∨
       strContains (pyLower (pyStrip btn.text)) "send" = true) := by
  unfold submitGood at h
  rw [Bool.and_eq_true, Bool.or_eq_true] at h
  exact h

theorem submitScanNodes_cons_good (btn : Dom) (anc : List Dom)
    (rest : List (Dom × List Dom)) (h : submitGood btn = true) :
    submitScanNodes ((btn, anc) :: rest) = some (submitHitOf (btn, anc)) := by
  obtain ⟨hvis, hcont⟩ := submitGood_parts btn h
  unfold submitScanNodes submitHitOf
  by_cases hbe : (pyLower (pyStrip btn.text) == "submit") = true
  · have hteq : pyLower (pyStrip btn.text) = "submit" := eq_of_beq hbe
    simp [hvis, hteq]
  · have hne : ¬ pyLower (pyStrip btn.text) = "submit" := by
      intro he
      exact hbe (by rw [he]; rfl)
    rcases hcont with hc | hc <;> simp [hvis, hne, hc]

theorem submitScanNodes_cons_bad (btn : Dom) (anc : List Dom)
    (rest : List (Dom × List Dom)) (h : submitGood btn = false) :
    submitScanNodes ((btn, anc) :: rest) = submitScanNodes rest := by
  conv_lhs => unfold submitScanNodes
  by_cases hvis : visibleDom btn = true
  · have hcont : (strContains (pyLower (pyStrip btn.text)) "submit" ||
        strContains (pyLower (pyStrip btn.text)) "send") = false := by
      unfold submitGood at h
      rwa [hvis, Bool.true_and] at h
    have h1 : strContains (pyLower (pyStrip btn.text)) "submit" = false := by
      cases hc : strContains (pyLower (pyStrip btn.text)) "submit"
      · rfl
      · rw [hc] at hcont; simp at hcont
    have h2 : strContains (pyLower (pyStrip btn.text)) "send" = false := by
      cases hc : strContains (pyLower (pyStrip btn.text)) "send"
      · rfl
      · rw [hc, Bool.or_true] at hcont; simp at hcont
    have hne : ¬ pyLower (pyStrip btn.text) = "submit" := by
      intro he
      rw [he] at h1
      exact absurd h1 (by decide)
    simp [hvis, hne, h1, h2]
  · have hv : visibleDom btn = false := by
      cases hb : visibleDom btn
      · rfl
      · exact absurd hb hvis
    simp [hv]

theorem submitScanNodes_append :
    ∀ (pre : List (Dom × List Dom)) (p : Dom × List Dom)
      (post : List (Dom × List Dom)),
      (∀ q ∈ pre, submitGood q.1 = false) → submitGood p.1 = true →
      submitScanNodes (pre ++ p :: post) = some (submitHitOf p)
  | [], p, post, _, hp => by
      rw [List.nil_append]
      exact submitScanNodes_cons_good p.1 p.2 post hp
  | q :: pre, p, post, hpre, hp => by
      rw [List.cons_append]
      rw [submitScanNodes_cons_bad q.1 q.2 _ (hpre q (by simp))]
      exact submitScanNodes_append pre p post (fun x hx => hpre x (by simp [hx])) hp

theorem submitSelectorLoop_append :
    ∀ (S₁ : List String) (sel : String) (S₂ : List String) (doc : List Dom)
      (h : SubmitHit),
      (∀ s ∈ S₁, submitScanNodes (querySelectorAllF doc s) = none) →
      submitScanNodes (querySelectorAllF doc sel) = some h →
      submitSelectorLoop (S₁ ++ sel :: S₂) doc = some h
  | [], sel, S₂, doc, h, _, hs => by
      simp [submitSelectorLoop, hs]
  | s :: S₁, sel, S₂, doc, h, hpre, hs => by
      have h0 : submitScanNodes (querySelectorAllF doc s) = none := hpre s (by simp)
      rw [List.cons_append]
      unfold submitSelectorLoop
      rw [h0]
      exact submitSelectorLoop_append S₁ sel S₂ doc h
        (fun x hx => hpre x (by simp [hx])) hs

theorem pollFirstVisible_lt (p : Nat → Bool) :
    ∀ (n start k : Nat), pollFirstVisible p start n = some k → k < start + n
  | 0, start, k, h => by simp [pollFirstVisible] at h
  | n + 1, start, k, h => by
      unfold pollFirstVisible at h
      by_cases hp : p start = true
      · rw [if_pos hp] at h
        have : start = k := by simpa using h
        omega
      · rw [if_neg hp] at h
        have := pollFirstVisible_lt p n (start + 1) k h
        omega

theorem pollFirstVisible_none (p : Nat → Bool) :
    ∀ (n start : Nat), (∀ j, j < n → p (start + j) = false) →
      pollFirstVisible p start n = none
  | 0, _, _ => rfl
  | n + 1, start, h => by
      have h0 : p start = false := by simpa using h 0 (by omega)
      unfold pollFirstVisible
      rw [h0]
      simp only [Bool.false_eq_true, if_false]
      exact pollFirstVisible_none p n (start + 1) (fun j hj => by
        have := h (j + 1) (by omega)
        rwa [show start + (j + 1) = start + 1 + j by omega] at this)

theorem panelPollBudget_eq_max (w : Int) : panelPollBudget w = max 1 w.toNat := by
  unfold panelPollBudget
  by_cases h : w.toNat = 0
  · simp [h]
  · rw [if_neg h]
    omega

theorem mem_set_bot_flag (v : Bool) (frames : List PageFrame) (fr : PageFrame)
    (hm : fr ∈ set_bot_clicking_for_all_frames v frames)
    (hok : fr.evalOk = true) : fr.flag = v := by
  unfold set_bot_clicking_for_all_frames at hm
  rw [List.mem_map] at hm
  obtain ⟨g, _, hg⟩ := hm
  unfold frameFlagEvalCaught frameFlagEval at hg
  by_cases hgo : g.evalOk = true
  · rw [if_pos hgo] at hg
    simp at hg
    rw [← hg]
  · rw [if_neg hgo] at hg
    simp at hg
    rw [← hg] at hok
    exact absurd hok hgo

theorem subFramesScan_skip {α : Type} (s₂ : List (EvalOutcome α)) :
    ∀ (s₁ : List (EvalOutcome α)) (i : Nat),
      subFramesScan (s₁ ++ .throws :: s₂) i =
        subFramesScan (s₁ ++ .value none :: s₂) i
  | [], i => by simp [subFramesScan]
  | .throws :: s₁, i => by
      simp only [List.cons_append, subFramesScan]
      exact subFramesScan_skip s₂ s₁ (i + 1)
  | .value none :: s₁, i => by
      simp only [List.cons_append, subFramesScan]
      exact subFramesScan_skip s₂ s₁ (i + 1)
  | .value (some r) :: s₁, i => by
      simp [subFramesScan]

theorem subFramesScan_none {α : Type} :
    ∀ (subs : List (EvalOutcome α)) (i : Nat),
      (∀ o ∈ subs, ∀ r : α, o ≠ .value (some r)) →
      subFramesScan subs i = (none, none)
  | [], _, _ => rfl
  | .throws :: subs, i, h =>
      subFramesScan_none subs (i + 1) (fun o ho => h o (by simp [ho]))
  | .value none :: subs, i, h =>
      subFramesScan_none subs (i + 1) (fun o ho => h o (by simp [ho]))
  | .value (some r) :: subs, i, h => by
      exact absurd rfl (h (.value (some r)) (by simp) r)

/-! ### Claim C1 -/

def c1elemA1 : Dom := .node "input" none none ["selA"] "" ⟨0, 0, 0, 0⟩ []

def c1elemA2 : Dom := .node "input" none none ["selA"] "" ⟨10, 10, 2, 2⟩ []

def c1elemB : Dom := .node "input" none none ["selB"] "" ⟨50, 50, 2, 2⟩ []

def c1doc : List Dom := [c1elemA1, c1elemA2, c1elemB]

/-- Claim C1, counterexample.  Candidate "selA" (index 0) does have a
visible match — its second document-order match, centered at (11, 11) —
yet the place-name cascade returns the match of the later candidate
"selB" at (51, 51), because the loop inspects only `querySelector`'s
first match of each candidate and candidate "selA"'s first match is
invisible.  This refutes the claim that the cascade returns the first
visible document-order match of the lowest-index candidate that has a
visible match. -/
theorem c1_counterexample :
    ((querySelectorAllF c1doc "selA").filter (fun p => visibleDom p.1)).map
        (fun p => (centerX p.1.rect, centerY p.1.rect)) = [(11, 11)] ∧
    findPlaceNameInput ["selA", "selB"] c1doc =
      some ⟨51, 51, "captured-selectors"⟩ ∧
    ((51 : ℤ), (51 : ℤ)) ≠ ((11 : ℤ), (11 : ℤ)) := by
  decide

/-- Claim C1, amended.  The place-name loop examines only each
candidate's first document-order match and returns its center iff that
match is visible, so the winner is the lowest-index candidate whose
first match is visible; the submit loop scans all of a candidate's
matches in document order and returns, for the lowest-index candidate
that has one, its first visible match with submit-like text. -/
theorem c1_amended :
    (∀ (P₁ P₂ : List String) (sel : String) (doc : List Dom)
        (p : Dom × List Dom),
        (∀ s ∈ P₁, firstMatchVisible doc s = false) →
        querySelectorF doc sel = some p → visibleDom p.1 = true →
        findPlaceNameInput (P₁ ++ sel :: P₂) doc =
          some ⟨centerX p.1.rect, centerY p.1.rect, "captured-selectors"⟩) ∧
    (∀ (S₁ S₂ : List String) (sel : String) (doc : List Dom)
        (pre post : List (Dom × List Dom)) (p : Dom × List Dom),
        (∀ s ∈ S₁, submitScanNodes (querySelectorAllF doc s) = none) →
        querySelectorAllF doc sel = pre ++ p :: post →
        (∀ q ∈ pre, submitGood q.1 = false) →
        submitGood p.1 = true →
        submitSelectorLoop (S₁ ++ sel :: S₂) doc = some (submitHitOf p)) := by
  constructor
  · intro P₁ P₂ sel doc p hpre hq hv
    exact findPlaceNameInput_of_loop _ _ _
      (placeNameSelectorLoop_append P₁ sel P₂ doc p hpre hq hv)
  · intro S₁ S₂ sel doc pre post p hpre heq hbad hgood
    have hs := submitScanNodes_append pre p post hbad hgood
    rw [← heq] at hs
    exact submitSelectorLoop_append S₁ sel S₂ doc _ hpre hs

def c1welemIn : Dom := .node "input" none none ["wP"] "" ⟨8, 8, 4, 4⟩ []

def c1wdocIn : List Dom := [c1welemIn]

def c1welemBtn : Dom := .node "span" none none ["wS"] "send now" ⟨4, 4, 2, 2⟩ []

def c1wdocBtn : List Dom := [c1welemBtn]

/-- Claim C1, witness: the amended cascade theorem evaluated at concrete
one-candidate-miss inputs for both loops. -/
theorem c1_witness :
    findPlaceNameInput ["zz", "wP"] c1wdocIn =
      some ⟨10, 10, "captured-selectors"⟩ ∧
    submitSelectorLoop ["zy", "wS"] c1wdocBtn =
      some ⟨5, 5, "send now", "ancestor"⟩ := by
  constructor
  · have h := c1_amended.1 ["zz"] [] "wP" c1wdocIn (c1welemIn, [])
      (by decide) rfl (by decide)
    rw [show (["zz"] ++ "wP" :: [] : List String) = ["zz", "wP"] from rfl] at h
    rw [h]
    decide
  · have h := c1_amended.2 ["zy"] [] "wS" c1wdocBtn [] [] (c1welemBtn, [])
      (by decide) rfl (by simp) (by decide)
    rw [show (["zy"] ++ "wS" :: [] : List String) = ["zy", "wS"] from rfl] at h
    rw [h]
    decide

/-! ### Claim C5 -/

def c5n1 : Dom := .node "span" none none ["c5S"] "submit now" ⟨0, 0, 2, 2⟩ []

def c5n2 : Dom := .node "span" none none ["c5S"] "submit" ⟨10, 10, 2, 2⟩ []

def c5doc : List Dom := [c5n1, c5n2]

/-- Claim C5, counterexample.  The page contains a visible element whose
trimmed lower-cased text is exactly "submit" (centered at (11, 11)), yet
the submit search returns the earlier contains-match "submit now": the
exact-text and contains checks run per node in one scan, so an
exact-text element is not preferred over a contains-match encountered
first. -/
theorem c5_counterexample :
    (∃ p ∈ querySelectorAllF c5doc "c5S",
      visibleDom p.1 = true ∧ pyLower (pyStrip p.1.text) = "submit") ∧
    submitSelectorLoop ["c5S"] c5doc =
      some ⟨1, 1, "submit now", "ancestor"⟩ ∧
    ¬ ("submit now" = "submit") := by
  decide

/-- Claim C5, amended.  The submit search returns the first visible node
with submit-like text in scan order (candidates in priority order,
matches in document order); a node whose trimmed lower-cased text is
exactly "submit" is clicked at its own center, and any other
contains-match is clicked at the center of its nearest self-or-ancestor
matching button, an element with role button, or a div — falling back to
the node's own rect when no such ancestor exists. -/
theorem c5_amended :
    ∀ (S₁ S₂ : List String) (sel : String) (doc : List Dom)
      (pre post : List (Dom × List Dom)) (p : Dom × List Dom),
      (∀ s ∈ S₁, submitScanNodes (querySelectorAllF doc s) = none) →
      querySelectorAllF doc sel = pre ++ p :: post →
      (∀ q ∈ pre, submitGood q.1 = false) →
      submitGood p.1 = true →
      (pyLower (pyStrip p.1.text) = "submit" →
        submitSelectorLoop (S₁ ++ sel :: S₂) doc =
          some ⟨centerX p.1.rect, centerY p.1.rect,
            pyLower (pyStrip p.1.text), "exact-match"⟩) ∧
      (¬ pyLower (pyStrip p.1.text) = "submit" →
        submitSelectorLoop (S₁ ++ sel :: S₂) doc =
          some ⟨centerX (ancestorRect p), centerY (ancestorRect p),
            pyLower (pyStrip p.1.text), "ancestor"⟩) := by
  intro S₁ S₂ sel doc pre post p hpre heq hbad hgood
  have hmain : submitSelectorLoop (S₁ ++ sel :: S₂) doc = some (submitHitOf p) := by
    have hs := submitScanNodes_append pre p post hbad hgood
    rw [← heq] at hs
    exact submitSelectorLoop_append S₁ sel S₂ doc _ hpre hs
  constructor
  · intro hteq
    rw [hmain]
    unfold submitHitOf
    simp [hteq]
  · intro hne
    have hbe : (pyLower (pyStrip p.1.text) == "submit") = false := by
      cases hb : pyLower (pyStrip p.1.text) == "submit"
      · rfl
      · exact absurd (eq_of_beq hb) hne
    rw [hmain]
    unfold submitHitOf
    simp [hbe]

def c5wLeaf : Dom := .node "span" none none ["c5W"] "send" ⟨4, 4, 2, 2⟩ []

def c5wBtn : Dom := .node "button" none none [] "send" ⟨0, 0, 10, 10⟩ [c5wLeaf]

def c5wdoc : List Dom := [c5wBtn]

/-- Claim C5, witness: the amended submit-resolution theorem evaluated on
a non-interactive "send" leaf inside a button, whose click lands at the
button's center (5, 5). -/
theorem c5_witness :
    submitSelectorLoop ["zx", "c5W"] c5wdoc = some ⟨5, 5, "send", "ancestor"⟩ := by
  have h := (c5_amended ["zx"] [] "c5W" c5wdoc [] [] (c5wLeaf, [c5wBtn])
    (by decide) rfl (by simp) (by decide)).2 (by decide)
  rw [show (["zx"] ++ "c5W" :: [] : List String) = ["zx", "c5W"] from rfl] at h
  rw [h]
  decide

/-! ### Claim C6 -/

def c6items : List MenuItem :=
  [⟨true, "https://maps.app", 0, 0⟩, ⟨true, "Hours", 5, 5⟩]

/-- Claim C6, counterexample.  With no hint match present, the first
visible entry with more than one character of text is the
"https://maps.app" entry, yet the selection skips it — pass 2 also
excludes any entry whose text contains "http" — and clicks "Hours"
instead, refuting the claim that, absent a hint match, the first visible
entry with more than one character of text is selected. -/
theorem c6_counterexample :
    (∀ it ∈ c6items, menuPass1 "NAME" it = false) ∧
    menuPass3 (⟨true, "https://maps.app", 0, 0⟩ : MenuItem) = true ∧
    1 < (pyStrip "https://maps.app").length ∧
    selectMenuEntry "NAME" c6items = some (.multiChar, ⟨true, "Hours", 5, 5⟩) ∧
    ((⟨true, "Hours", 5, 5⟩ : MenuItem) ≠ ⟨true, "https://maps.app", 0, 0⟩) := by
  decide

/-- Claim C6, amended.  An entry whose cleaned (stripped, upper-cased,
printable-filtered) visible text contains the upper-cased business-name
hint is selected over every non-matching entry, even when a non-matching
entry comes first in document order; absent any hint match, the first
visible entry whose stripped text has more than one character and does
not contain "http" is selected; absent that, the first visible entry
with non-empty text is clicked. -/
theorem c6_amended :
    ∀ (hint : String) (pre post : List MenuItem) (it : MenuItem),
      (menuPass1 hint it = true → (∀ x ∈ pre, menuPass1 hint x = false) →
        selectMenuEntry hint (pre ++ it :: post) = some (.hintMatch, it)) ∧
      ((∀ x ∈ pre ++ it :: post, menuPass1 hint x = false) →
        menuPass2 it = true → (∀ x ∈ pre, menuPass2 x = false) →
        selectMenuEntry hint (pre ++ it :: post) = some (.multiChar, it)) ∧
      ((∀ x ∈ pre ++ it :: post, menuPass1 hint x = false) →
        (∀ x ∈ pre ++ it :: post, menuPass2 x = false) →
        menuPass3 it = true → (∀ x ∈ pre, menuPass3 x = false) →
        selectMenuEntry hint (pre ++ it :: post) = some (.anyText, it)) := by
  intro hint pre post it
  refine ⟨?_, ?_, ?_⟩
  · intro h1 hpre
    unfold selectMenuEntry
    rw [find?_split (menuPass1 hint) pre it post h1 hpre]
  · intro hn1 h2 hpre
    unfold selectMenuEntry
    rw [find?_none (menuPass1 hint) _ hn1,
      find?_split menuPass2 pre it post h2 hpre]
  · intro hn1 hn2 h3 hpre
    unfold selectMenuEntry
    rw [find?_none (menuPass1 hint) _ hn1, find?_none menuPass2 _ hn2,
      find?_split menuPass3 pre it post h3 hpre]

/-- Claim C6, witness: the amended selection theorem evaluated on the
spec's own example (hint match outranking an earlier icon entry), on a
pass-2 list and on a pass-3 list. -/
theorem c6_witness :
    selectMenuEntry "Coffee Shop"
        [⟨true, "×", 0, 0⟩, ⟨true, "Coffee Shop West", 1, 1⟩, ⟨true, "Hours", 2, 2⟩] =
      some (.hintMatch, ⟨true, "Coffee Shop West", 1, 1⟩) ∧
    selectMenuEntry "zzz" [⟨true, "×", 0, 0⟩, ⟨true, "Edit name", 1, 1⟩] =
      some (.multiChar, ⟨true, "Edit name", 1, 1⟩) ∧
    selectMenuEntry "zzz" [⟨false, "Edit", 0, 0⟩, ⟨true, "×", 1, 1⟩] =
      some (.anyText, ⟨true, "×", 1, 1⟩) := by
  refine ⟨?_, ?_, ?_⟩
  · exact (c6_amended "Coffee Shop" [⟨true, "×", 0, 0⟩] [⟨true, "Hours", 2, 2⟩]
      ⟨true, "Coffee Shop West", 1, 1⟩).1 (by decide) (by decide)
  · exact (c6_amended "zzz" [⟨true, "×", 0, 0⟩] []
      ⟨true, "Edit name", 1, 1⟩).2.1 (by decide) (by decide) (by decide)
  · exact (c6_amended "zzz" [⟨false, "Edit", 0, 0⟩] []
      ⟨true, "×", 1, 1⟩).2.2 (by decide) (by decide) (by decide) (by decide)

/-! ### Claim C2 -/

/-- Claim C2.  In every state at which the pointer click is dispatched,
the suppression flag is already true in every reachable frame; in the
state after the call, the flag is false in every reachable frame — also
when the click itself raises, because the clearing step runs in a
`finally`; and the only exception that propagates out is the click's
own, the flag-setting sweeps never raising past their per-frame
`try/except`. -/
theorem c2_suppression_protocol (clickThrows : Bool) (clickDelay : ℚ)
    (frames : List PageFrame) :
    (∀ st, (ClickEv.mouseClick, st) ∈
        (click_xy_in_frame clickThrows clickDelay frames).steps →
      ∀ fr ∈ st, fr.evalOk = true → fr.flag = true) ∧
    (∀ fr ∈ (click_xy_in_frame clickThrows clickDelay frames).finalFrames,
      fr.evalOk = true → fr.flag = false) ∧
    (click_xy_in_frame clickThrows clickDelay frames).raised = clickThrows := by
  have hfinal : (click_xy_in_frame clickThrows clickDelay frames).finalFrames =
      set_bot_clicking_for_all_frames false
        (set_bot_clicking_for_all_frames true frames) := by
    unfold click_xy_in_frame ClickTrace.finalFrames
    by_cases hct : clickThrows = true <;>
      by_cases hd : (0 : ℚ) < clickDelay <;>
        simp [hct, hd]
  refine ⟨?_, ?_, rfl⟩
  · intro st hst fr hfr hok
    have hstEq : st = set_bot_clicking_for_all_frames true frames := by
      simp only [click_xy_in_frame, List.mem_append, List.mem_cons,
        List.not_mem_nil, or_false] at hst
      rcases hst with (h | h | h) | h
      · simp at h
      · simp only [Prod.mk.injEq, true_and] at h
        exact h
      · simp at h
      · by_cases hct : clickThrows = true
        · simp [hct] at h
        · by_cases hd : (0 : ℚ) < clickDelay <;> simp [hct, hd] at h
    rw [hstEq] at hfr
    exact mem_set_bot_flag true frames fr hfr hok
  · intro fr hfr hok
    rw [hfinal] at hfr
    exact mem_set_bot_flag false _ fr hfr hok

/-- Claim C2, witness: the protocol theorem evaluated at a raising click
over one reachable frame. -/
theorem c2_witness :
    (click_xy_in_frame true halfRat [⟨true, true⟩]).raised = true ∧
    (⟨true, true⟩ : PageFrame).flag = true ∧
    (⟨true, false⟩ : PageFrame).flag = false :=
  ⟨(c2_suppression_protocol true halfRat [⟨true, true⟩]).2.2,
   (c2_suppression_protocol true halfRat [⟨true, true⟩]).1
     (set_bot_clicking_for_all_frames true [⟨true, true⟩]) (by decide)
     ⟨true, true⟩ (by decide) rfl,
   (c2_suppression_protocol true halfRat [⟨true, true⟩]).2.1
     ⟨true, false⟩ (by decide) rfl⟩

/-! ### Claim C3 -/

/-- Claim C3, counterexample.  With the default 0.5 s delay and a
successful click over one reachable frame, the trace shows the flag
cleared before the settle sleep: the state in force during the sleep has
the flag false, refuting the claim that the flag stays true for the
whole inter-action delay and becomes false only once it has elapsed. -/
theorem c3_counterexample :
    (click_xy_in_frame false halfRat [⟨true, false⟩]).steps =
      [(.setFlags true, [⟨true, true⟩]), (.mouseClick, [⟨true, true⟩]),
       (.setFlags false, [⟨true, false⟩]), (.settleSleep, [⟨true, false⟩])] ∧
    ¬ (∀ st fr, (ClickEv.settleSleep, st) ∈
          (click_xy_in_frame false halfRat [⟨true, false⟩]).steps →
        fr ∈ st → fr.evalOk = true → fr.flag = true) := by
  constructor
  · decide
  · intro h
    exact absurd (h [⟨true, false⟩] ⟨true, false⟩ (by decide) (by decide) rfl)
      (by decide)

/-- Claim C3, amended.  The suppression flag is cleared in the `finally`
immediately after the click dispatch, before the settle delay: whenever
the click does not raise and the configurable delay is positive, the
trace runs set-flags-true, click, set-flags-false, settle-sleep in that
order, and during the sleep every reachable frame's flag is already
false. -/
theorem c3_amended (frames : List PageFrame) (delay : ℚ) (hd : 0 < delay) :
    (click_xy_in_frame false delay frames).steps =
      [(.setFlags true, set_bot_clicking_for_all_frames true frames),
       (.mouseClick, set_bot_clicking_for_all_frames true frames),
       (.setFlags false, set_bot_clicking_for_all_frames false
          (set_bot_clicking_for_all_frames true frames)),
       (.settleSleep, set_bot_clicking_for_all_frames false
          (set_bot_clicking_for_all_frames true frames))] ∧
    (∀ fr ∈ set_bot_clicking_for_all_frames false
        (set_bot_clicking_for_all_frames true frames),
      fr.evalOk = true → fr.flag = false) := by
  constructor
  · simp [click_xy_in_frame, hd]
  · intro fr hfr hok
    exact mem_set_bot_flag false _ fr hfr hok

/-- Claim C3, witness: the amended clearing-order theorem evaluated at
the default 0.5 s delay over one reachable frame. -/
theorem c3_witness :
    (click_xy_in_frame false halfRat [⟨true, false⟩]).steps =
      [(.setFlags true, set_bot_clicking_for_all_frames true [⟨true, false⟩]),
       (.mouseClick, set_bot_clicking_for_all_frames true [⟨true, false⟩]),
       (.setFlags false, set_bot_clicking_for_all_frames false
          (set_bot_clicking_for_all_frames true [⟨true, false⟩])),
       (.settleSleep, set_bot_clicking_for_all_frames false
          (set_bot_clicking_for_all_frames true [⟨true, false⟩]))] ∧
    (⟨true, false⟩ : PageFrame).flag = false :=
  ⟨(c3_amended [⟨true, false⟩] halfRat (by decide)).1,
   (c3_amended [⟨true, false⟩] halfRat (by decide)).2 ⟨true, false⟩
     (by decide) rfl⟩

/-! ### Claim C4 -/

/-- Claim C4.  The frame evaluator returns the main frame's result with
the main-frame tag whenever the top-level evaluation yields a truthy
result; a frame whose evaluation throws behaves exactly like one that
yields no result, iteration continuing with the next frame; and when no
frame yields a truthy result it returns the null pair rather than
raising. -/
theorem c4_frame_evaluator (α : Type) :
    (∀ (r : α) (subs : List (EvalOutcome α)),
      evaluate_in_all_frames (.value (some r)) subs =
        (some r, some .mainFrame)) ∧
    (∀ (main : EvalOutcome α) (s₁ s₂ : List (EvalOutcome α)),
      evaluate_in_all_frames main (s₁ ++ .throws :: s₂) =
        evaluate_in_all_frames main (s₁ ++ .value none :: s₂)) ∧
    (∀ (main : EvalOutcome α) (subs : List (EvalOutcome α)),
      (∀ r : α, main ≠ .value (some r)) →
      (∀ o ∈ subs, ∀ r : α, o ≠ .value (some r)) →
      evaluate_in_all_frames main subs = (none, none)) := by
  refine ⟨fun r subs => rfl, ?_, ?_⟩
  · intro main s₁ s₂
    cases main with
    | throws => exact subFramesScan_skip s₂ s₁ 0
    | value v =>
        cases v with
        | none => exact subFramesScan_skip s₂ s₁ 0
        | some r => rfl
  · intro main subs hm hs
    cases main with
    | throws => exact subFramesScan_none subs 0 hs
    | value v =>
        cases v with
        | none => exact subFramesScan_none subs 0 hs
        | some r => exact absurd rfl (hm r)

/-- Claim C4, witness: the frame-evaluator theorem evaluated at concrete
outcomes — a truthy main frame, a throwing sub-frame treated as empty,
and a run with no truthy frame at all. -/
theorem c4_witness :
    evaluate_in_all_frames (α := Nat) (.value (some 7)) [.throws] =
      (some 7, some .mainFrame) ∧
    evaluate_in_all_frames (α := Nat) .throws ([.value none] ++ .throws :: [.value (some 9)]) =
      evaluate_in_all_frames (α := Nat) .throws ([.value none] ++ .value none :: [.value (some 9)]) ∧
    evaluate_in_all_frames (α := Nat) .throws [.throws, .value none] =
      (none, none) :=
  ⟨(c4_frame_evaluator Nat).1 7 [.throws],
   (c4_frame_evaluator Nat).2.1 .throws [.value none] [.value (some 9)],
   (c4_frame_evaluator Nat).2.2 .throws [.throws, .value none]
     (fun r h => by cases h)
     (fun o ho r => by fin_cases ho <;> simp)⟩

/-! ### Claim C7 -/

def c7env : SuggestEnv :=
  { panelWaitSeconds := 0, panelVisibleAt := fun _ => false,
    selectorClickSucceeds := false, panelBoxAvailable := false,
    keyboardNavThrows := true, lastResortFound := false }

/-- Claim C7, counterexample.  With `panel_wait_seconds` configured to 0,
the poll still runs one attempt (`range(max_attempts or 1)`), so the
claim that at most `panel_wait_seconds` attempts are polled fails at
this configuration. -/
theorem c7_counterexample :
    c7env.panelWaitSeconds = 0 ∧
    (open_suggest_edit c7env).pollAttemptsUsed = 1 ∧
    ¬ (((open_suggest_edit c7env).pollAttemptsUsed : Int) ≤
        c7env.panelWaitSeconds) := by
  decide

/-- Claim C7, amended.  The panel poll runs at most
`max(1, panel_wait_seconds)` attempts (default 3), one second apart; on
exhaustion it logs a warning and the function continues rather than
failing; and when every discovery fallback also fails it saves the
screenshot and full-HTML dump, performs the 45-second passive wait, and
still returns True. -/
theorem c7_amended :
    ∀ env : SuggestEnv,
      (open_suggest_edit env).pollAttemptsUsed ≤
        max 1 env.panelWaitSeconds.toNat ∧
      ((open_suggest_edit env).panelLoaded = false →
        (open_suggest_edit env).warnedPanelNotLoaded = true ∧
        (open_suggest_edit env).result = true) ∧
      ((open_suggest_edit env).found = false →
        (open_suggest_edit env).savedDebugArtifacts = true ∧
        (open_suggest_edit env).passiveWait45 = true ∧
        (open_suggest_edit env).result = true) := by
  intro env
  refine ⟨?_, ?_, ?_⟩
  · rw [← panelPollBudget_eq_max]
    have hrec : (open_suggest_edit env).pollAttemptsUsed =
        match pollFirstVisible env.panelVisibleAt 0
            (panelPollBudget env.panelWaitSeconds) with
        | some k => k + 1
        | none => panelPollBudget env.panelWaitSeconds := rfl
    rw [hrec]
    cases hp : pollFirstVisible env.panelVisibleAt 0
        (panelPollBudget env.panelWaitSeconds) with
    | some k =>
        have hlt := pollFirstVisible_lt env.panelVisibleAt
          (panelPollBudget env.panelWaitSeconds) 0 k hp
        show k + 1 ≤ panelPollBudget env.panelWaitSeconds
        omega
    | none => exact Nat.le_refl _
  · intro h
    have hw : (open_suggest_edit env).warnedPanelNotLoaded =
        !(open_suggest_edit env).panelLoaded := rfl
    rw [hw, h]
    exact ⟨rfl, rfl⟩
  · intro h
    have hs : (open_suggest_edit env).savedDebugArtifacts =
        !(open_suggest_edit env).found := rfl
    have hp : (open_suggest_edit env).passiveWait45 =
        !(open_suggest_edit env).found := rfl
    rw [hs, hp, h]
    exact ⟨rfl, rfl, rfl⟩

/-- Claim C7, witness: the amended theorem evaluated at the
all-fallbacks-fail configuration with a zero panel wait. -/
theorem c7_witness :
    (open_suggest_edit c7env).pollAttemptsUsed ≤ 1 ∧
    (open_suggest_edit c7env).warnedPanelNotLoaded = true ∧
    (open_suggest_edit c7env).savedDebugArtifacts = true ∧
    (open_suggest_edit c7env).passiveWait45 = true ∧
    (open_suggest_edit c7env).result = true :=
  ⟨(c7_amended c7env).1,
   ((c7_amended c7env).2.1 (by decide)).1,
   ((c7_amended c7env).2.2 (by decide)).1,
   ((c7_amended c7env).2.2 (by decide)).2.1,
   ((c7_amended c7env).2.2 (by decide)).2.2⟩

/-! ### Claim C8 -/

/-- Claim C8, counterexample.  When neither the address menu option nor
any direct address-input tier finds anything, `submit_address_change`
only warns and still returns True — not a failure result as the claim
states for both edit paths. -/
theorem c8_counterexample :
    submit_address_change ⟨false, false, false⟩ =
      { result := true, warnedNoInput := true, submitted := false,
        warnedNoSubmit := true } ∧
    ¬ ((submit_address_change ⟨false, false, false⟩).result = false) := by
  decide

/-- Claim C8, amended.  Total exhaustion of all resolution tiers for the
name input yields an observable failure: when the menu stage clicked,
every one of the 20 place-name poll attempts finds nothing and the
fallback editable-element scan returns no candidate at all,
`submit_name_change` saves a screenshot and returns False.
`submit_address_change`, by contrast, returns True on every non-raising
path, merely warning when its address input cannot be found by any
tier. -/
theorem c8_amended :
    (∀ env : NameEnv, menuClicked env = true →
      (∀ k, k < 20 →
        findPlaceNameInput place_name_selectors (env.docAt k) = none) →
      env.editables = [] →
      (submit_name_change env).result = false ∧
      (submit_name_change env).screenshotNoInputs = true) ∧
    (∀ env : AddrEnv,
      (submit_address_change env).result = true ∧
      (env.menuOptionFound = false → env.directInputFound = false →
        (submit_address_change env).warnedNoInput = true)) := by
  constructor
  · intro env hmc hpoll hed
    have hpn : pollFirstVisible
        (fun k => (findPlaceNameInput place_name_selectors (env.docAt k)).isSome)
        0 20 = none := by
      apply pollFirstVisible_none
      intro j hj
      have hj' := hpoll j (by omega)
      simp [Nat.zero_add, hj']
    constructor
    · simp [submit_name_change, hmc, hpn, hed, NameResult.retval]
    · simp [submit_name_change, hmc, hpn, hed]
  · intro env
    refine ⟨rfl, fun h1 h2 => ?_⟩
    simp [submit_address_change, h1, h2]

def c8nameEnv : NameEnv :=
  { hint := "", items := [], selectorFallbackClicks := true,
    docAt := fun _ => [], submitDoc := [], editables := [],
    fallbackSubmitAt := fun _ => none, clickDelayPos := true }

/-- Claim C8, witness: the amended theorem evaluated on a run whose menu
stage clicked, whose 20 polls all query an empty document, and whose
fallback scan is empty, plus the no-input address run. -/
theorem c8_witness :
    (submit_name_change c8nameEnv).result = false ∧
    (submit_name_change c8nameEnv).screenshotNoInputs = true ∧
    (submit_address_change ⟨false, false, false⟩).result = true ∧
    (submit_address_change ⟨false, false, false⟩).warnedNoInput = true :=
  ⟨(c8_amended.1 c8nameEnv (by decide) (by decide) rfl).1,
   (c8_amended.1 c8nameEnv (by decide) (by decide) rfl).2,
   (c8_amended.2 ⟨false, false, false⟩).1,
   (c8_amended.2 ⟨false, false, false⟩).2 rfl rfl⟩

/-! ### Claim C9 -/

def c9nameEnv : NameEnv :=
  { hint := "", items := [], selectorFallbackClicks := true,
    docAt := fun _ => [], submitDoc := [], editables := [],
    fallbackSubmitAt := fun _ => none, clickDelayPos := true }

/-- Claim C9, counterexample.  On a run whose name edit fails —
`submit_name_change` returns False — `suggest_general_edit` still
returns True and the `main_async` edit phase still reaches its
unconditional completion banner: the edit functions' Booleans are
discarded, not propagated to the caller-visible result. -/
theorem c9_counterexample :
    (submit_name_change c9nameEnv).result = false ∧
    suggest_general_edit ⟨some c9nameEnv, none⟩ = true ∧
    main_async_edit_phase (some c9nameEnv) none = true :=
  ⟨by decide, rfl, rfl⟩

/-- Claim C9, amended.  The Booleans returned by `submit_name_change`
and `submit_address_change` are discarded by their callers:
`suggest_general_edit` returns True on every non-raising run regardless
of the edits' outcomes, and the `main_async` edit phase proceeds to its
completion banner unconditionally. -/
theorem c9_amended :
    ∀ env : GeneralEditEnv,
      suggest_general_edit env = true ∧
      main_async_edit_phase env.nameEdit env.addressEdit = true :=
  fun _ => ⟨rfl, rfl⟩

/-! ### Claim C10 -/

/-- Claim C10.  In the fallback-input branch, when the submit-button
search returns null the unconditional subscript still raises (the body
yields the TypeError before any branch), the per-input handler swallows
it and the loop advances to the next editable element; consequently the
"Submit button not found" branch is unreachable whenever the search
yields null, whatever the click-delay configuration. -/
theorem c10_fallback_subscript :
    (∀ d : Bool, fallbackIterBody none d =
      Except.error "TypeError: 'NoneType' object is not subscriptable") ∧
    (∀ d : Bool, fallbackIter none d = .advance) ∧
    (∀ d : Bool, ¬ (fallbackIter none d = .notFoundMsg)) ∧
    (∀ (f : Nat → Option SubmitHit) (d : Bool) (idx n : Nat),
      f idx = none →
      runFallbackLoop f d idx (n + 1) = runFallbackLoop f d (idx + 1) n) := by
  refine ⟨fun _ => rfl, fun _ => rfl,
    fun d h => FallbackIterOutcome.noConfusion h, ?_⟩
  intro f d idx n hf
  conv_lhs => unfold runFallbackLoop
  rw [hf]
  rfl

/-- Claim C10, witness: the subscript-and-advance theorem evaluated on a
loop whose submit search always yields null. -/
theorem c10_witness :
    fallbackIter none true = .advance ∧
    runFallbackLoop (fun _ => none) true 0 1 =
      runFallbackLoop (fun _ => none) true 1 0 :=
  ⟨c10_fallback_subscript.2.1 true,
   c10_fallback_subscript.2.2.2 (fun _ => none) true 0 0 rfl⟩
